import Mathlib

/-!
Shallow embedding of the `nanitex-official/chatbot` message bridge.

Server side: `src/server/routes/chat.ts`, the Express handler `handleChat`.
Client side: `src/client/components/Chat.tsx`, the `sendMessage` closure of
the `Chat` component.

JavaScript runtime values are embedded as the inductive `JSValue`; numbers
are modelled as integers (no claim involves fractional or NaN arithmetic).
`String.trim` of Lean stands for JavaScript `String.prototype.trim` (both
strip leading and trailing whitespace; the exact whitespace alphabet differs
only in exotic Unicode code points that no claim touches).  The single
outbound `fetch` per request is modelled by a `FetchOutcome` argument that
describes how the awaited call behaves: it either rejects with a thrown
value or resolves to a response with a status, a status text and a body
whose `json()` parse either succeeds or rejects.
-/

namespace Chatbot

/-- A JavaScript runtime value, as far as the bridge inspects one. -/
inductive JSValue where
  | undefined
  | null
  | bool (b : Bool)
  | num (n : Int)
  | str (s : String)
  | arr (elems : List JSValue)
  | obj (fields : List (String × JSValue))

/-- JavaScript truthiness of a value (`!v` is its negation). -/
def jsTruthy : JSValue → Bool
  | .undefined => false
  | .null => false
  | .bool b => b
  | .num n => n != 0
  | .str s => s != ""
  | .arr _ => true
  | .obj _ => true

/-- Whether a value is `null` or `undefined` (property access on it throws). -/
def JSValue.isNullish : JSValue → Bool
  | .undefined => true
  | .null => true
  | _ => false

/-- Field lookup inside an object literal. -/
def lookupField : List (String × JSValue) → String → JSValue
  | [], _ => .undefined
  | (k, v) :: rest, key => if k = key then v else lookupField rest key

/-- JavaScript property read `v.key`: `none` models the TypeError thrown when
`v` is nullish; on the other primitives and on arrays the (absent) named
property reads as `undefined`. -/
def getProp : JSValue → String → Option JSValue
  | .undefined, _ => none
  | .null, _ => none
  | .obj fields, key => some (lookupField fields key)
  | _, _ => some .undefined

/-- Property read on a value already known not to be nullish. -/
def propOrUndef (v : JSValue) (key : String) : JSValue :=
  (getProp v key).getD .undefined

/-- The JavaScript `typeof` operator. -/
def jsTypeof : JSValue → String
  | .undefined => "undefined"
  | .null => "object"
  | .bool _ => "boolean"
  | .num _ => "number"
  | .str _ => "string"
  | .arr _ => "object"
  | .obj _ => "object"

/-- JavaScript `String.prototype.trim`: drop leading and trailing
whitespace characters.  (Defined over the character list so that the kernel
can evaluate it; `String.trim` of core Lean is defined through substring
primitives that do not reduce definitionally.) -/
def trimString (s : String) : String :=
  String.mk
    (((s.data.dropWhile Char.isWhitespace).reverse.dropWhile
        Char.isWhitespace).reverse)

/-- The call `v.trim()`; the handler only ever reaches it on a string. -/
def jsTrim : JSValue → JSValue
  | .str s => .str (trimString s)
  | v => v

/-- JavaScript `a || b`. -/
def jsOr (a b : JSValue) : JSValue := if jsTruthy a then a else b

/-- A thrown JavaScript value: either an `Error` instance carrying its
`message`, or any other value. -/
inductive JSError where
  | error (message : String)
  | other (v : JSValue)

/-- How the `await response.json()` of a fetch response behaves: the body
parses to a JSON value, or parsing rejects with an `Error` whose message is
recorded. -/
inductive BodyParse where
  | ok (v : JSValue)
  | fails (errMessage : String)

/-- A resolved fetch response, as far as the bridge inspects one. -/
structure FetchResponse where
  status : Nat
  statusText : String
  jsonBody : BodyParse

/-- The `response.ok` accessor: status in the 2xx range. -/
def responseOk (r : FetchResponse) : Bool := 200 ≤ r.status && r.status ≤ 299

/-- The behaviour of the one awaited `fetch` call of a request: the promise
rejects with a thrown value, or resolves to a response. -/
inductive FetchOutcome where
  | rejects (e : JSError)
  | resolves (r : FetchResponse)

/-- An HTTP request issued through `fetch` (the `payload` is the object
passed to `JSON.stringify` for the request body). -/
structure OutboundRequest where
  url : String
  method : String
  contentType : String
  payload : JSValue

/-- The response the server handler sends (`res.status(...).json(...)`;
a plain `res.json(...)` sends status 200). -/
structure HttpResponse where
  status : Nat
  body : JSValue

/-- The observable effect of one run of the server handler: the response it
sent (`none` when the handler faulted with an uncaught throw), the outbound
fetch requests it issued, and whether `console.error` ran. -/
structure HandlerResult where
  response : Option HttpResponse
  outbound : List OutboundRequest
  loggedError : Bool

/-- The error text of the configuration failure branch of `handleChat`. -/
def configErrorText : String :=
  "N8N_WEBHOOK_URL is not configured. Please set it in your environment variables."

/-- The user-facing text of the catch-all failure branch of `handleChat`. -/
def unreachableText : String :=
  "Unable to reach the chat service. Please try again later."

/-- The validation test of `handleChat`, line for line:
`!message || typeof message !== "string" || !message.trim()`. -/
def messageInvalid (message : JSValue) : Bool :=
  !jsTruthy message || jsTypeof message != "string" || !jsTruthy (jsTrim message)

/-- The best-effort message of the catch block:
`error instanceof Error ? error.message : "Failed to process your message"`. -/
def serverErrorMsg : JSError → String
  | .error m => m
  | .other _ => "Failed to process your message"

/-- The catch block of `handleChat`: log the failure and send a 500 with the
best-effort error message and the fixed user-facing message. -/
def catchBlock (e : JSError) (calls : List OutboundRequest) : HandlerResult :=
  { response := some
      { status := 500,
        body := .obj [("error", .str (serverErrorMsg e)),
                      ("message", .str unreachableText)] },
    outbound := calls,
    loggedError := true }

/-- The try block of `handleChat`: POST `{"query": message.trim()}` to the
webhook, throw on a non-ok status, parse the body as JSON and pass it back
with status 200; any throw lands in `catchBlock`. -/
def forwardToWebhook (webhookUrl : String) (message : JSValue)
    (net : FetchOutcome) : HandlerResult :=
  let call : OutboundRequest :=
    { url := webhookUrl, method := "POST", contentType := "application/json",
      payload := .obj [("query", jsTrim message)] }
  match net with
  | .rejects e => catchBlock e [call]
  | .resolves r =>
    if !responseOk r then
      catchBlock
        (.error ("n8n webhook returned status " ++ toString r.status ++ ": "
          ++ r.statusText))
        [call]
    else
      match r.jsonBody with
      | .fails m => catchBlock (.error m) [call]
      | .ok data =>
        { response := some { status := 200, body := data },
          outbound := [call],
          loggedError := false }

/-- The Express handler of `src/server/routes/chat.ts`.  `reqBody` is
`req.body`, `webhookEnv` is `process.env.N8N_WEBHOOK_URL` (absent or a
string), `net` says how the single outbound fetch behaves.  Destructuring
`const { message } = req.body` on a nullish body throws outside the try
block, leaving no response (`response := none`). -/
def handleChat (reqBody : JSValue) (webhookEnv : Option String)
    (net : FetchOutcome) : HandlerResult :=
  match getProp reqBody "message" with
  | none => { response := none, outbound := [], loggedError := false }
  | some message =>
    if messageInvalid message then
      { response := some
          { status := 400,
            body := .obj [("error", .str "Message is required")] },
        outbound := [], loggedError := false }
    else
      match webhookEnv with
      | none =>
        { response := some
            { status := 500, body := .obj [("error", .str configErrorText)] },
          outbound := [], loggedError := false }
      | some webhookUrl =>
        if webhookUrl = "" then
          { response := some
              { status := 500, body := .obj [("error", .str configErrorText)] },
            outbound := [], loggedError := false }
        else
          forwardToWebhook webhookUrl message net

/-- Who authored a transcript entry (`sender: "user" | "bot"`). -/
inductive Sender where
  | user
  | bot

/-- A transcript entry of the `Chat` component (`interface Message`).  The
source declares `text: string`, but the bot reply assigned to it is the
untyped `data.reply || data.message || "No response from bot"`, so `text`
is embedded as a `JSValue` (a user entry always carries a string). -/
structure Message where
  id : String
  text : JSValue
  sender : Sender
  timestamp : Nat

/-- The mutable state of the `Chat` component that `sendMessage` touches:
the `messages`, `input`, `isLoading` and `error` hooks. -/
structure ClientState where
  messages : List Message
  input : String
  isLoading : Bool
  error : Option String

/-- The best-effort message of the client catch block:
`err instanceof Error ? err.message : "Failed to send message"`. -/
def clientErrorMsg : JSError → String
  | .error m => m
  | .other _ => "Failed to send message"

/-- The engine TypeError text thrown by `data.reply` when `data` is nullish
(wording modelled on V8, without the quotation marks; no theorem depends on
this string). -/
def nullishReadError : JSValue → String
  | .null => "Cannot read properties of null (reading reply)"
  | _ => "Cannot read properties of undefined (reading reply)"

/-- The `sendMessage` closure of `src/client/components/Chat.tsx`.  `st` is
the component state when the form is submitted, `now` the `Date.now()`
clock reading during the submission (the two reads and the two `new Date()`
calls are modelled by the one reading; the bot entry id adds 1 as in the
source), and `net` the behaviour of the awaited `fetch("/api/chat", ...)`.
Returns the state after the handler finishes together with the list of
requests it issued.  `e.preventDefault()`, scrolling and refocusing are
presentation effects outside the state embedded here. -/
def sendMessage (st : ClientState) (now : Nat) (net : FetchOutcome) :
    ClientState × List OutboundRequest :=
  if trimString st.input = "" then (st, [])
  else
    let userMessage : Message :=
      { id := toString now, text := .str st.input, sender := .user,
        timestamp := now }
    let afterSend : ClientState :=
      { messages := st.messages ++ [userMessage], input := "", error := none,
        isLoading := true }
    let request : OutboundRequest :=
      { url := "/api/chat", method := "POST",
        contentType := "application/json",
        payload := .obj [("message", .str st.input)] }
    let final : ClientState :=
      match net with
      | .rejects e =>
        { afterSend with error := some (clientErrorMsg e), isLoading := false }
      | .resolves r =>
        if !responseOk r then
          { afterSend with
            error := some ("API error: " ++ r.statusText),
            isLoading := false }
        else
          match r.jsonBody with
          | .fails m =>
            { afterSend with error := some m, isLoading := false }
          | .ok data =>
            match getProp data "reply" with
            | none =>
              { afterSend with
                error := some (nullishReadError data),
                isLoading := false }
            | some replyVal =>
              let botReply : JSValue :=
                jsOr (jsOr replyVal (propOrUndef data "message"))
                  (.str "No response from bot")
              let botMessage : Message :=
                { id := toString (now + 1), text := botReply, sender := .bot,
                  timestamp := now }
              { afterSend with
                messages := afterSend.messages ++ [botMessage],
                isLoading := false }
    (final, [request])

/-- Whether the fetch of a submission failed in one of the three ways the
client catch block can be reached from the network: the call rejected, the
response status was not ok, or the body failed to parse as JSON. -/
def fetchFailed : FetchOutcome → Bool
  | .rejects _ => true
  | .resolves r =>
    !responseOk r
      || (match r.jsonBody with | .fails _ => true | .ok _ => false)

/-- Modelled from the spec: the server wiring that registers the JSON
body-parsing middleware is not under `src/` (only the route handler is).
Per the spec inbound interface, a request body is JSON with content type
JSON; the middleware delivers the parsed JSON object or array to the
handler, and an absent body reaches the handler as an empty object.  Other
JSON texts (strict parsing) are answered by the middleware itself and never
reach the handler. -/
inductive deliveredBody : Option JSValue → JSValue → Prop
  | absent : deliveredBody none (JSValue.obj [])
  | objBody (fields : List (String × JSValue)) :
      deliveredBody (some (JSValue.obj fields)) (JSValue.obj fields)
  | arrBody (elems : List JSValue) :
      deliveredBody (some (JSValue.arr elems)) (JSValue.arr elems)

/-! Helper lemmas about the validation test, the forwarding block and the
client submission, shared by the claim theorems below. -/

lemma trimString_empty : trimString "" = "" := rfl

lemma messageInvalid_of_bad (m : JSValue)
    (hbad : ∀ s, m = JSValue.str s → trimString s = "") :
    messageInvalid m = true := by
  cases m <;> simp [messageInvalid, jsTruthy, jsTypeof, jsTrim]
  case str s =>
    simp [hbad s rfl]

lemma messageInvalid_validStr (s : String) (hs : trimString s ≠ "") :
    messageInvalid (JSValue.str s) = false := by
  have hne : s ≠ "" := by
    intro h
    subst h
    exact hs rfl
  simp [messageInvalid, jsTruthy, jsTypeof, jsTrim, hne, hs]

lemma handleChat_invalid (reqBody : JSValue) (env : Option String)
    (net : FetchOutcome) (m : JSValue)
    (hm : getProp reqBody "message" = some m)
    (hbad : ∀ s, m = JSValue.str s → trimString s = "") :
    handleChat reqBody env net
      = { response := some
            { status := 400,
              body := JSValue.obj [("error", JSValue.str "Message is required")] },
          outbound := [], loggedError := false } := by
  unfold handleChat
  rw [hm]
  simp [messageInvalid_of_bad m hbad]

lemma handleChat_valid (reqBody : JSValue) (net : FetchOutcome) (s u : String)
    (hm : getProp reqBody "message" = some (JSValue.str s))
    (hs : trimString s ≠ "") (hu : u ≠ "") :
    handleChat reqBody (some u) net = forwardToWebhook u (JSValue.str s) net := by
  unfold handleChat
  rw [hm]
  simp [messageInvalid_validStr s hs, hu]

lemma handleChat_config (reqBody : JSValue) (net : FetchOutcome) (m : JSValue)
    (hm : getProp reqBody "message" = some m)
    (hok : messageInvalid m = false) :
    handleChat reqBody none net
      = { response := some
            { status := 500,
              body := JSValue.obj [("error", JSValue.str configErrorText)] },
          outbound := [], loggedError := false } := by
  unfold handleChat
  rw [hm]
  simp [hok]

lemma forwardToWebhook_outbound (u : String) (m : JSValue) (net : FetchOutcome) :
    (forwardToWebhook u m net).outbound
      = [{ url := u, method := "POST", contentType := "application/json",
           payload := JSValue.obj [("query", jsTrim m)] }] := by
  cases net with
  | rejects e => rfl
  | resolves r =>
    unfold forwardToWebhook
    by_cases h : responseOk r
    · rcases r with ⟨st, stx, jb⟩
      cases jb <;> simp_all [catchBlock]
    · simp [h, catchBlock]

lemma forwardToWebhook_status (u : String) (m : JSValue) (net : FetchOutcome) :
    (forwardToWebhook u m net).response.map HttpResponse.status = some 200
      ∨ (forwardToWebhook u m net).response.map HttpResponse.status = some 500 := by
  cases net with
  | rejects e => right; rfl
  | resolves r =>
    by_cases hok : responseOk r
    · rcases hjb : r.jsonBody with d | msg
      · left
        simp [forwardToWebhook, hok, hjb]
      · right
        simp [forwardToWebhook, hok, hjb, catchBlock]
    · right
      simp [forwardToWebhook, hok, catchBlock]

lemma getProp_nullish (v : JSValue) (k : String) (h : v.isNullish = true) :
    getProp v k = none := by
  cases v <;> simp_all [JSValue.isNullish, getProp]

lemma getProp_not_nullish (v : JSValue) (k : String) (h : v.isNullish = false) :
    getProp v k = some (propOrUndef v k) := by
  cases v <;> simp_all [JSValue.isNullish, getProp, propOrUndef]

lemma jsOr_chain (a b c : JSValue) :
    jsOr (jsOr a b) c
      = if jsTruthy a then a
        else if jsTruthy b then b
        else c := by
  by_cases ha : jsTruthy a <;> by_cases hb : jsTruthy b <;> simp [jsOr, ha, hb]

lemma sendMessage_rejects (st : ClientState) (now : Nat) (e : JSError)
    (hin : trimString st.input ≠ "") :
    sendMessage st now (FetchOutcome.rejects e)
      = ({ messages := st.messages
              ++ [{ id := toString now, text := JSValue.str st.input,
                    sender := Sender.user, timestamp := now }],
           input := "", isLoading := false,
           error := some (clientErrorMsg e) },
         [{ url := "/api/chat", method := "POST",
            contentType := "application/json",
            payload := JSValue.obj [("message", JSValue.str st.input)] }]) := by
  simp [sendMessage, hin]

lemma sendMessage_badStatus (st : ClientState) (now : Nat) (r : FetchResponse)
    (hin : trimString st.input ≠ "") (hok : responseOk r = false) :
    sendMessage st now (FetchOutcome.resolves r)
      = ({ messages := st.messages
              ++ [{ id := toString now, text := JSValue.str st.input,
                    sender := Sender.user, timestamp := now }],
           input := "", isLoading := false,
           error := some ("API error: " ++ r.statusText) },
         [{ url := "/api/chat", method := "POST",
            contentType := "application/json",
            payload := JSValue.obj [("message", JSValue.str st.input)] }]) := by
  simp [sendMessage, hin, hok]

lemma sendMessage_parseFail (st : ClientState) (now : Nat) (r : FetchResponse)
    (msg : String) (hin : trimString st.input ≠ "")
    (hok : responseOk r = true) (hjb : r.jsonBody = BodyParse.fails msg) :
    sendMessage st now (FetchOutcome.resolves r)
      = ({ messages := st.messages
              ++ [{ id := toString now, text := JSValue.str st.input,
                    sender := Sender.user, timestamp := now }],
           input := "", isLoading := false, error := some msg },
         [{ url := "/api/chat", method := "POST",
            contentType := "application/json",
            payload := JSValue.obj [("message", JSValue.str st.input)] }]) := by
  simp [sendMessage, hin, hok, hjb]

lemma sendMessage_nullData (st : ClientState) (now : Nat) (r : FetchResponse)
    (data : JSValue) (hin : trimString st.input ≠ "")
    (hok : responseOk r = true) (hjb : r.jsonBody = BodyParse.ok data)
    (hnn : data.isNullish = true) :
    sendMessage st now (FetchOutcome.resolves r)
      = ({ messages := st.messages
              ++ [{ id := toString now, text := JSValue.str st.input,
                    sender := Sender.user, timestamp := now }],
           input := "", isLoading := false,
           error := some (nullishReadError data) },
         [{ url := "/api/chat", method := "POST",
            contentType := "application/json",
            payload := JSValue.obj [("message", JSValue.str st.input)] }]) := by
  simp [sendMessage, hin, hok, hjb, getProp_nullish data "reply" hnn]

lemma sendMessage_success (st : ClientState) (now : Nat) (r : FetchResponse)
    (data : JSValue) (hin : trimString st.input ≠ "")
    (hok : responseOk r = true) (hjb : r.jsonBody = BodyParse.ok data)
    (hnn : data.isNullish = false) :
    sendMessage st now (FetchOutcome.resolves r)
      = ({ messages := st.messages
              ++ [{ id := toString now, text := JSValue.str st.input,
                    sender := Sender.user, timestamp := now }]
              ++ [{ id := toString (now + 1),
                    text := jsOr (jsOr (propOrUndef data "reply")
                        (propOrUndef data "message"))
                      (JSValue.str "No response from bot"),
                    sender := Sender.bot, timestamp := now }],
           input := "", isLoading := false, error := none },
         [{ url := "/api/chat", method := "POST",
            contentType := "application/json",
            payload := JSValue.obj [("message", JSValue.str st.input)] }]) := by
  simp [sendMessage, hin, hok, hjb, getProp_not_nullish data "reply" hnn]

/-- C1: for every valid request (a `message` string with non-empty trimmed
form, and a configured webhook address), `handleChat` issues exactly one
outbound POST whose payload carries, under the `query` key, exactly the
trimmed form of the incoming `message`; trimming is the only transformation
applied to the text. -/
theorem c1_query_is_trimmed (reqBody : JSValue) (net : FetchOutcome)
    (s u : String)
    (hm : getProp reqBody "message" = some (JSValue.str s))
    (hs : trimString s ≠ "") (hu : u ≠ "") :
    (handleChat reqBody (some u) net).outbound
      = [{ url := u, method := "POST", contentType := "application/json",
           payload := JSValue.obj [("query", JSValue.str (trimString s))] }] := by
  rw [handleChat_valid reqBody net s u hm hs hu,
    forwardToWebhook_outbound u (JSValue.str s) net]
  rfl

/-- Witness for C1 at the request body `{"message": "  hi  "}`. -/
theorem c1_query_is_trimmed_witness :
    (handleChat (JSValue.obj [("message", JSValue.str "  hi  ")])
        (some "http://hook")
        (FetchOutcome.resolves
          { status := 200, statusText := "OK",
            jsonBody := BodyParse.ok (JSValue.obj []) })).outbound
      = [{ url := "http://hook", method := "POST",
           contentType := "application/json",
           payload := JSValue.obj [("query", JSValue.str "hi")] }] :=
  c1_query_is_trimmed (JSValue.obj [("message", JSValue.str "  hi  ")])
    (FetchOutcome.resolves
      { status := 200, statusText := "OK",
        jsonBody := BodyParse.ok (JSValue.obj []) })
    "  hi  " "http://hook" rfl (by decide) (by decide)

/-- C2: for every valid request whose webhook call resolves with a success
status and a body that parses as JSON, `handleChat` answers with status 200
and that parsed body passed through unmodified. -/
theorem c2_success_passthrough (reqBody : JSValue) (s u : String)
    (r : FetchResponse) (data : JSValue)
    (hm : getProp reqBody "message" = some (JSValue.str s))
    (hs : trimString s ≠ "") (hu : u ≠ "")
    (hok : responseOk r = true) (hjb : r.jsonBody = BodyParse.ok data) :
    (handleChat reqBody (some u) (FetchOutcome.resolves r)).response
      = some { status := 200, body := data } := by
  rw [handleChat_valid reqBody (FetchOutcome.resolves r) s u hm hs hu]
  simp [forwardToWebhook, hok, hjb]

/-- Witness for C2 with message `"Hello"` and webhook body
`{"reply": "Hi there"}`. -/
theorem c2_success_passthrough_witness :
    (handleChat (JSValue.obj [("message", JSValue.str "Hello")])
        (some "http://hook")
        (FetchOutcome.resolves
          { status := 200, statusText := "OK",
            jsonBody := BodyParse.ok
              (JSValue.obj [("reply", JSValue.str "Hi there")]) })).response
      = some { status := 200,
               body := JSValue.obj [("reply", JSValue.str "Hi there")] } :=
  c2_success_passthrough (JSValue.obj [("message", JSValue.str "Hello")])
    "Hello" "http://hook"
    { status := 200, statusText := "OK",
      jsonBody := BodyParse.ok (JSValue.obj [("reply", JSValue.str "Hi there")]) }
    (JSValue.obj [("reply", JSValue.str "Hi there")])
    rfl (by decide) (by decide) rfl rfl

/-- C3: for every request whose `message` field is missing, not a string,
or empty after trimming, `handleChat` answers 400 with body
`{error: "Message is required"}` and issues no outbound call. -/
theorem c3_invalid_message_rejected (reqBody : JSValue) (env : Option String)
    (net : FetchOutcome) (m : JSValue)
    (hm : getProp reqBody "message" = some m)
    (hbad : ∀ s, m = JSValue.str s → trimString s = "") :
    (handleChat reqBody env net).response
        = some { status := 400,
                 body := JSValue.obj [("error", JSValue.str "Message is required")] }
      ∧ (handleChat reqBody env net).outbound = [] := by
  rw [handleChat_invalid reqBody env net m hm hbad]
  exact ⟨rfl, rfl⟩

/-- Witness for C3 at the whitespace-only message `"   "`. -/
theorem c3_invalid_message_rejected_witness :
    (handleChat (JSValue.obj [("message", JSValue.str "   ")])
          (some "http://hook") (FetchOutcome.rejects (JSError.error "down"))).response
        = some { status := 400,
                 body := JSValue.obj [("error", JSValue.str "Message is required")] }
      ∧ (handleChat (JSValue.obj [("message", JSValue.str "   ")])
          (some "http://hook") (FetchOutcome.rejects (JSError.error "down"))).outbound
        = [] :=
  c3_invalid_message_rejected (JSValue.obj [("message", JSValue.str "   ")])
    (some "http://hook") (FetchOutcome.rejects (JSError.error "down"))
    (JSValue.str "   ") rfl
    (by intro s h; cases h; rfl)

/-- C4: for every valid request where the outbound call rejects, the webhook
answers a non-success status, or the body fails to parse, `handleChat`
answers 500 with a body holding a best-effort `error` message and the fixed
`message` text, and logs the failure. -/
theorem c4_upstream_failure_500 (reqBody : JSValue) (net : FetchOutcome)
    (s u : String)
    (hm : getProp reqBody "message" = some (JSValue.str s))
    (hs : trimString s ≠ "") (hu : u ≠ "")
    (hf : fetchFailed net = true) :
    ∃ emsg : String,
      (handleChat reqBody (some u) net).response
          = some { status := 500,
                   body := JSValue.obj [("error", JSValue.str emsg),
                                        ("message", JSValue.str unreachableText)] }
        ∧ (handleChat reqBody (some u) net).loggedError = true := by
  rw [handleChat_valid reqBody net s u hm hs hu]
  cases net with
  | rejects e => exact ⟨serverErrorMsg e, rfl, rfl⟩
  | resolves r =>
    by_cases hok : responseOk r
    · rcases hjb : r.jsonBody with d | msg
      · rw [fetchFailed] at hf
        simp [hok, hjb] at hf
      · refine ⟨msg, ?_, ?_⟩ <;>
          simp [forwardToWebhook, hok, hjb, catchBlock, serverErrorMsg]
    · refine ⟨"n8n webhook returned status " ++ toString r.status ++ ": "
        ++ r.statusText, ?_, ?_⟩ <;>
        simp [forwardToWebhook, hok, catchBlock, serverErrorMsg]

/-- Witness for C4 at a webhook answering status 503. -/
theorem c4_upstream_failure_500_witness :
    ∃ emsg : String,
      (handleChat (JSValue.obj [("message", JSValue.str "Hello")])
            (some "http://hook")
            (FetchOutcome.resolves
              { status := 503, statusText := "Service Unavailable",
                jsonBody := BodyParse.ok (JSValue.obj []) })).response
          = some { status := 500,
                   body := JSValue.obj [("error", JSValue.str emsg),
                                        ("message", JSValue.str unreachableText)] }
        ∧ (handleChat (JSValue.obj [("message", JSValue.str "Hello")])
            (some "http://hook")
            (FetchOutcome.resolves
              { status := 503, statusText := "Service Unavailable",
                jsonBody := BodyParse.ok (JSValue.obj []) })).loggedError
          = true :=
  c4_upstream_failure_500 (JSValue.obj [("message", JSValue.str "Hello")])
    (FetchOutcome.resolves
      { status := 503, statusText := "Service Unavailable",
        jsonBody := BodyParse.ok (JSValue.obj []) })
    "Hello" "http://hook" rfl (by decide) (by decide) rfl

/-- C6: when the webhook address is absent from the environment, every
request carrying a valid message is answered 500 with the configuration
error text in the `error` field, and no outbound call is issued. -/
theorem c6_missing_config_500 (reqBody : JSValue) (net : FetchOutcome)
    (s : String)
    (hm : getProp reqBody "message" = some (JSValue.str s))
    (hs : trimString s ≠ "") :
    (handleChat reqBody none net).response
        = some { status := 500,
                 body := JSValue.obj [("error", JSValue.str configErrorText)] }
      ∧ (handleChat reqBody none net).outbound = [] := by
  rw [handleChat_config reqBody net (JSValue.str s) hm
    (messageInvalid_validStr s hs)]
  exact ⟨rfl, rfl⟩

/-- Witness for C6 at the valid message `"Hello"` with the address unset. -/
theorem c6_missing_config_500_witness :
    (handleChat (JSValue.obj [("message", JSValue.str "Hello")]) none
          (FetchOutcome.rejects (JSError.error "down"))).response
        = some { status := 500,
                 body := JSValue.obj [("error", JSValue.str configErrorText)] }
      ∧ (handleChat (JSValue.obj [("message", JSValue.str "Hello")]) none
          (FetchOutcome.rejects (JSError.error "down"))).outbound
        = [] :=
  c6_missing_config_500 (JSValue.obj [("message", JSValue.str "Hello")])
    (FetchOutcome.rejects (JSError.error "down")) "Hello" rfl (by decide)

/-- C7: for every request body the JSON middleware can deliver to the
handler (a parsed JSON object or array, or an empty object for an absent
body), any environment and any fetch behaviour, `handleChat` sends exactly
one response, and its status is 200, 400 or 500. -/
theorem c7_handler_always_responds (raw : Option JSValue) (body : JSValue)
    (env : Option String) (net : FetchOutcome)
    (hd : deliveredBody raw body) :
    (handleChat body env net).response.map HttpResponse.status = some 200
      ∨ (handleChat body env net).response.map HttpResponse.status = some 400
      ∨ (handleChat body env net).response.map HttpResponse.status = some 500 := by
  have hget : ∃ m, getProp body "message" = some m := by
    cases hd with
    | absent => exact ⟨JSValue.undefined, rfl⟩
    | objBody fields => exact ⟨lookupField fields "message", rfl⟩
    | arrBody elems => exact ⟨JSValue.undefined, rfl⟩
  obtain ⟨m, hm⟩ := hget
  unfold handleChat
  rw [hm]
  by_cases hinv : messageInvalid m
  · right; left
    simp [hinv]
  · cases env with
    | none =>
      right; right
      simp [hinv]
    | some u =>
      by_cases hu : u = ""
      · right; right
        simp [hinv, hu]
      · have hfw := forwardToWebhook_status u m net
        rcases hfw with h | h
        · left
          simpa [hinv, hu] using h
        · right; right
          simpa [hinv, hu] using h

/-- Witness for C7 at an absent request body. -/
theorem c7_handler_always_responds_witness :
    (handleChat (JSValue.obj []) none
          (FetchOutcome.rejects (JSError.error "down"))).response.map
        HttpResponse.status = some 200
      ∨ (handleChat (JSValue.obj []) none
          (FetchOutcome.rejects (JSError.error "down"))).response.map
        HttpResponse.status = some 400
      ∨ (handleChat (JSValue.obj []) none
          (FetchOutcome.rejects (JSError.error "down"))).response.map
        HttpResponse.status = some 500 :=
  c7_handler_always_responds none (JSValue.obj []) none
    (FetchOutcome.rejects (JSError.error "down")) deliveredBody.absent

/-- C9: validation runs before the configuration check: a request whose
`message` is missing, non-string or whitespace-only is answered 400 with
`{error: "Message is required"}` even when the webhook address is unset,
and the configuration error is never reported for it. -/
theorem c9_validation_precedes_config (reqBody : JSValue)
    (net : FetchOutcome) (m : JSValue)
    (hm : getProp reqBody "message" = some m)
    (hbad : ∀ s, m = JSValue.str s → trimString s = "") :
    (handleChat reqBody none net).response
        = some { status := 400,
                 body := JSValue.obj [("error", JSValue.str "Message is required")] }
      ∧ (handleChat reqBody none net).outbound = [] := by
  rw [handleChat_invalid reqBody none net m hm hbad]
  exact ⟨rfl, rfl⟩

/-- Witness for C9 at a missing `message` field with the address unset. -/
theorem c9_validation_precedes_config_witness :
    (handleChat (JSValue.obj []) none
          (FetchOutcome.rejects (JSError.error "down"))).response
        = some { status := 400,
                 body := JSValue.obj [("error", JSValue.str "Message is required")] }
      ∧ (handleChat (JSValue.obj []) none
          (FetchOutcome.rejects (JSError.error "down"))).outbound
        = [] :=
  c9_validation_precedes_config (JSValue.obj [])
    (FetchOutcome.rejects (JSError.error "down")) JSValue.undefined rfl
    (by intro s h; cases h)

lemma sendMessage_loading (st : ClientState) (now : Nat) (net : FetchOutcome)
    (hin : trimString st.input ≠ "") :
    ((sendMessage st now net).1).isLoading = false := by
  cases net with
  | rejects e => simp [sendMessage_rejects st now e hin]
  | resolves r =>
    by_cases hok : responseOk r = true
    · rcases hjb : r.jsonBody with d | msg
      · cases hnn : d.isNullish with
        | false => simp [sendMessage_success st now r d hin hok hjb hnn]
        | true => simp [sendMessage_nullData st now r d hin hok hjb hnn]
      · simp [sendMessage_parseFail st now r msg hin hok hjb]
    · have hok2 : responseOk r = false := by simpa using hok
      simp [sendMessage_badStatus st now r hin hok2]

/-- C5, counterexample to the claimed presence-based precedence: on the
success body `{"reply": "", "message": "Hi"}` the `reply` field is present
(with the empty string as its value), yet the appended bot entry carries
the text `"Hi"`, not the present `reply` value. -/
theorem c5_presence_counterexample :
    getProp (JSValue.obj [("reply", JSValue.str ""), ("message", JSValue.str "Hi")])
        "reply"
        = some (JSValue.str "")
      ∧ ((sendMessage
            { messages := [], input := "Hello", isLoading := false, error := none }
            0
            (FetchOutcome.resolves
              { status := 200, statusText := "OK",
                jsonBody := BodyParse.ok
                  (JSValue.obj [("reply", JSValue.str ""),
                                ("message", JSValue.str "Hi")]) })).1.messages.map
          Message.text)
        = [JSValue.str "Hello", JSValue.str "Hi"]
      ∧ JSValue.str "Hi" ≠ JSValue.str "" := by
  refine ⟨rfl, rfl, ?_⟩
  simp

/-- C5 (amended): the displayed bot text is selected by JavaScript
truthiness, not bare presence: the `reply` value if truthy (for a string,
present and non-empty), else the `message` value if truthy, else the
literal `"No response from bot"`. -/
theorem c5_bot_text_truthiness (st : ClientState) (now : Nat)
    (r : FetchResponse) (data : JSValue)
    (hin : trimString st.input ≠ "")
    (hok : responseOk r = true) (hjb : r.jsonBody = BodyParse.ok data)
    (hnn : data.isNullish = false) :
    (sendMessage st now (FetchOutcome.resolves r)).1.messages
      = st.messages
          ++ [{ id := toString now, text := JSValue.str st.input,
                sender := Sender.user, timestamp := now },
              { id := toString (now + 1),
                text :=
                  if jsTruthy (propOrUndef data "reply") then
                    propOrUndef data "reply"
                  else if jsTruthy (propOrUndef data "message") then
                    propOrUndef data "message"
                  else JSValue.str "No response from bot",
                sender := Sender.bot, timestamp := now }] := by
  rw [sendMessage_success st now r data hin hok hjb hnn]
  simp [jsOr_chain]

/-- Witness for the amended C5 at the body `{"message": "Hi"}` with no
`reply` field: the displayed text is `"Hi"`. -/
theorem c5_bot_text_truthiness_witness :
    (sendMessage
        { messages := [], input := "Hello", isLoading := false, error := none }
        0
        (FetchOutcome.resolves
          { status := 200, statusText := "OK",
            jsonBody := BodyParse.ok
              (JSValue.obj [("message", JSValue.str "Hi")]) })).1.messages
      = [{ id := "0", text := JSValue.str "Hello",
           sender := Sender.user, timestamp := 0 },
         { id := "1", text := JSValue.str "Hi",
           sender := Sender.bot, timestamp := 0 }] :=
  c5_bot_text_truthiness
    { messages := [], input := "Hello", isLoading := false, error := none }
    0
    { status := 200, statusText := "OK",
      jsonBody := BodyParse.ok (JSValue.obj [("message", JSValue.str "Hi")]) }
    (JSValue.obj [("message", JSValue.str "Hi")])
    (by decide) rfl rfl rfl

/-- C8: for every submission with non-empty trimmed input whose fetch fails
(rejection, non-success status, or parse failure), the client stores an
error string in the single error slot (its value does not depend on any
prior error, which it replaces), appends no bot entry (the transcript
gains exactly the user entry), and the loading flag ends false for every
outcome, success included. -/
theorem c8_failure_error_slot (st : ClientState) (now : Nat)
    (net : FetchOutcome)
    (hin : trimString st.input ≠ "") (hf : fetchFailed net = true) :
    ((sendMessage st now net).1.error).isSome = true
      ∧ (sendMessage st now net).1.messages
          = st.messages
              ++ [{ id := toString now, text := JSValue.str st.input,
                    sender := Sender.user, timestamp := now }]
      ∧ (∀ e0 : Option String,
          (sendMessage { st with error := e0 } now net).1.error
            = (sendMessage st now net).1.error)
      ∧ (∀ net2 : FetchOutcome,
          ((sendMessage st now net2).1).isLoading = false) := by
  have hin2 : ∀ e0 : Option String,
      trimString ({ st with error := e0 } : ClientState).input ≠ "" :=
    fun _ => hin
  rcases net with e | r
  · refine ⟨?_, ?_, ?_, fun net2 => sendMessage_loading st now net2 hin⟩
    · simp [sendMessage_rejects st now e hin]
    · simp [sendMessage_rejects st now e hin]
    · intro e0
      rw [sendMessage_rejects st now e hin,
        sendMessage_rejects { st with error := e0 } now e (hin2 e0)]
  · by_cases hok : responseOk r = true
    · rcases hjb : r.jsonBody with d | msg
      · rw [fetchFailed] at hf
        simp [hok, hjb] at hf
      · refine ⟨?_, ?_, ?_, fun net2 => sendMessage_loading st now net2 hin⟩
        · simp [sendMessage_parseFail st now r msg hin hok hjb]
        · simp [sendMessage_parseFail st now r msg hin hok hjb]
        · intro e0
          rw [sendMessage_parseFail st now r msg hin hok hjb,
            sendMessage_parseFail { st with error := e0 } now r msg (hin2 e0)
              hok hjb]
    · have hok2 : responseOk r = false := by simpa using hok
      refine ⟨?_, ?_, ?_, fun net2 => sendMessage_loading st now net2 hin⟩
      · simp [sendMessage_badStatus st now r hin hok2]
      · simp [sendMessage_badStatus st now r hin hok2]
      · intro e0
        rw [sendMessage_badStatus st now r hin hok2,
          sendMessage_badStatus { st with error := e0 } now r (hin2 e0) hok2]

/-- Witness for C8 at a fetch that rejects with a network error. -/
theorem c8_failure_error_slot_witness :
    (((sendMessage
          { messages := [], input := "Hello", isLoading := true,
            error := some "old" }
          0 (FetchOutcome.rejects (JSError.error "net down"))).1.error).isSome
        = true)
      ∧ (sendMessage
          { messages := [], input := "Hello", isLoading := true,
            error := some "old" }
          0 (FetchOutcome.rejects (JSError.error "net down"))).1.messages
          = []
              ++ [{ id := "0", text := JSValue.str "Hello",
                    sender := Sender.user, timestamp := 0 }]
      ∧ (∀ e0 : Option String,
          (sendMessage
              { messages := ([] : List Message), input := "Hello",
                isLoading := true, error := e0 }
              0 (FetchOutcome.rejects (JSError.error "net down"))).1.error
            = (sendMessage
                { messages := ([] : List Message), input := "Hello",
                  isLoading := true, error := some "old" }
                0 (FetchOutcome.rejects (JSError.error "net down"))).1.error)
      ∧ (∀ net2 : FetchOutcome,
          ((sendMessage
              { messages := ([] : List Message), input := "Hello",
                isLoading := true, error := some "old" }
              0 net2).1).isLoading = false) :=
  c8_failure_error_slot
    { messages := [], input := "Hello", isLoading := true, error := some "old" }
    0 (FetchOutcome.rejects (JSError.error "net down")) (by decide) rfl

/-- C10: for every submission with non-empty trimmed input, one request is
issued carrying the raw input text under `message`; the input field ends
empty in every outcome (so the typed text is never restored), the
transcript begins with the prior entries followed by the user entry with
the raw text, and on failure the transcript is exactly that — the user
entry stays and nothing else is appended. -/
theorem c10_input_cleared_entry_kept (st : ClientState) (now : Nat)
    (net : FetchOutcome) (hin : trimString st.input ≠ "") :
    (sendMessage st now net).2
        = [{ url := "/api/chat", method := "POST",
             contentType := "application/json",
             payload := JSValue.obj [("message", JSValue.str st.input)] }]
      ∧ (sendMessage st now net).1.input = ""
      ∧ (sendMessage st now net).1.messages.take (st.messages.length + 1)
          = st.messages
              ++ [{ id := toString now, text := JSValue.str st.input,
                    sender := Sender.user, timestamp := now }]
      ∧ (fetchFailed net = true →
          (sendMessage st now net).1.messages
            = st.messages
                ++ [{ id := toString now, text := JSValue.str st.input,
                      sender := Sender.user, timestamp := now }]) := by
  rcases net with e | r
  · rw [sendMessage_rejects st now e hin]
    refine ⟨rfl, rfl, ?_, fun _ => rfl⟩
    apply List.take_of_length_le
    simp
  · by_cases hok : responseOk r = true
    · rcases hjb : r.jsonBody with d | msg
      · cases hnn : d.isNullish with
        | false =>
          rw [sendMessage_success st now r d hin hok hjb hnn]
          refine ⟨rfl, rfl, ?_, ?_⟩
          · rw [List.take_left']
            simp
          · intro hf
            rw [fetchFailed] at hf
            simp [hok, hjb] at hf
        | true =>
          rw [sendMessage_nullData st now r d hin hok hjb hnn]
          refine ⟨rfl, rfl, ?_, fun _ => rfl⟩
          apply List.take_of_length_le
          simp
      · rw [sendMessage_parseFail st now r msg hin hok hjb]
        refine ⟨rfl, rfl, ?_, fun _ => rfl⟩
        apply List.take_of_length_le
        simp
    · have hok2 : responseOk r = false := by simpa using hok
      rw [sendMessage_badStatus st now r hin hok2]
      refine ⟨rfl, rfl, ?_, fun _ => rfl⟩
      apply List.take_of_length_le
      simp

/-- Witness for C10 at input `"Hello"` and a fetch rejection. -/
theorem c10_input_cleared_entry_kept_witness :
    (sendMessage
          { messages := [], input := "Hello", isLoading := false,
            error := none }
          0 (FetchOutcome.rejects (JSError.error "net down"))).2
        = [{ url := "/api/chat", method := "POST",
             contentType := "application/json",
             payload := JSValue.obj [("message", JSValue.str "Hello")] }]
      ∧ (sendMessage
          { messages := [], input := "Hello", isLoading := false,
            error := none }
          0 (FetchOutcome.rejects (JSError.error "net down"))).1.input = ""
      ∧ (sendMessage
          { messages := ([] : List Message), input := "Hello",
            isLoading := false, error := none }
          0 (FetchOutcome.rejects (JSError.error "net down"))).1.messages.take
            (([] : List Message).length + 1)
          = []
              ++ [{ id := "0", text := JSValue.str "Hello",
                    sender := Sender.user, timestamp := 0 }]
      ∧ (fetchFailed (FetchOutcome.rejects (JSError.error "net down")) = true →
          (sendMessage
              { messages := ([] : List Message), input := "Hello",
                isLoading := false, error := none }
              0 (FetchOutcome.rejects (JSError.error "net down"))).1.messages
            = []
                ++ [{ id := "0", text := JSValue.str "Hello",
                      sender := Sender.user, timestamp := 0 }]) :=
  c10_input_cleared_entry_kept
    { messages := [], input := "Hello", isLoading := false, error := none }
    0 (FetchOutcome.rejects (JSError.error "net down")) (by decide)

end Chatbot
